import Mathlib

/-!
Verification development for the `lte-ns3-output-analyzer` repository.

The repository turns NS-3 LTE simulation telemetry (a `flowmon.xml` flow
trace and a `simulation_metrics.csv` time-series table) into per-flow
derived metrics, aggregate reports, and cross-run comparison data.

This file shallowly embeds the numeric/data-flow core of the Python
sources:
  * `analyzer.py` — `parse_time_with_units`, `generate_summary_documentation`
  * `analyzer/parse_flowmon.py` — `parse_flowmon` (flow extraction,
    derived metrics, UE classification, CSV-write guard)
  * `analyzer/utils.py` — `generate_report` (pandas mean-of-means)
  * `graph_merger.py` — `load_simulation_data` (run comparator)
  * `main.py` — the driver's parsed-CSV existence check

Python floats are modelled as exact rationals (`ℚ`); pandas nullable
cells as `Option ℚ` (with `none` playing the role of NaN/absent, since
pandas `mean` skips NaN); fallible operations return `Except`/`Option`.
-/

namespace LteAnalyzer

/-! ### Unit normalizer — `analyzer.py`, `parse_time_with_units` (lines 36-45) -/

/-- The recognized time-unit suffixes of `parse_time_with_units`:
`"ns"`, `"ms"`, a bare `"s"`, or no suffix at all (`bare`). -/
inductive TimeSuffix
  | ns
  | ms
  | s
  | bare
deriving DecidableEq, Repr

/-- The `str.endswith` cascade of `parse_time_with_units` (lines 38-44):
`"ns"` is tested first, then `"ms"`, then `"s"`, else no suffix.
Python strings are modelled as character lists. -/
def suffix_of_token (value : List Char) : TimeSuffix :=
  if List.isSuffixOf ['n', 's'] value then .ns
  else if List.isSuffixOf ['m', 's'] value then .ms
  else if List.isSuffixOf ['s'] value then .s
  else .bare

/-- `analyzer.py` lines 36-45: convert a time token to milliseconds.
`num` is the numeric portion of the token (the `float(...)` result,
modelled exactly as a rational) and the suffix is the one the
`endswith` cascade selects.  Factors as in the source: `ns` × 1e-6,
`ms` × 1, `s` × 1e3, no suffix passed through unchanged. -/
def parse_time_with_units (num : ℚ) : TimeSuffix → ℚ
  | .ns => num * (1 / 1000000)
  | .ms => num
  | .s => num * 1000
  | .bare => num

/-- Every suffix's conversion factor is positive, so scaling preserves
order of the numeric portion. -/
def TimeSuffix.factor : TimeSuffix → ℚ
  | .ns => 1 / 1000000
  | .ms => 1
  | .s => 1000
  | .bare => 1

theorem parse_time_with_units_eq_factor (num : ℚ) (suf : TimeSuffix) :
    parse_time_with_units num suf = num * suf.factor := by
  cases suf <;> simp [parse_time_with_units, TimeSuffix.factor]

theorem factor_pos (suf : TimeSuffix) : 0 < suf.factor := by
  cases suf <;> norm_num [TimeSuffix.factor]

/-- C1: For every valid unit token the Unit Normalizer returns the value
in milliseconds using exactly the factors ns × 1e-6, ms × 1, s × 1e3,
bare pass-through; `"1000ns"` and `"0.001ms"` normalize to equal values;
and for a fixed suffix the result is monotonic in the numeric portion. -/
theorem C1_unit_normalizer :
    (∀ num : ℚ,
      parse_time_with_units num .ns = num * (1 / 1000000) ∧
      parse_time_with_units num .ms = num ∧
      parse_time_with_units num .s = num * 1000 ∧
      parse_time_with_units num .bare = num) ∧
    (suffix_of_token "1000ns".toList = .ns ∧ suffix_of_token "0.001ms".toList = .ms ∧
      parse_time_with_units 1000 .ns = parse_time_with_units (1 / 1000) .ms) ∧
    (∀ (suf : TimeSuffix) (a b : ℚ), a ≤ b →
      parse_time_with_units a suf ≤ parse_time_with_units b suf) := by
  refine ⟨fun num => ⟨rfl, rfl, rfl, rfl⟩, ⟨by decide, by decide, by norm_num [parse_time_with_units]⟩, ?_⟩
  intro suf a b hab
  rw [parse_time_with_units_eq_factor, parse_time_with_units_eq_factor]
  exact mul_le_mul_of_nonneg_right hab (le_of_lt (factor_pos suf))

/-- Witness for C1: the monotonicity clause at the concrete inputs 1 ≤ 2
with the `s` suffix. -/
theorem C1_unit_normalizer_witness :
    (1 : ℚ) ≤ 2 ∧ parse_time_with_units 1 .s ≤ parse_time_with_units 2 .s :=
  ⟨by norm_num, C1_unit_normalizer.2.2 .s 1 2 (by norm_num)⟩

/-! ### Metric deriver — `analyzer/parse_flowmon.py` lines 77-78 -/

/-- `parse_flowmon.py` line 77:
`throughput = (rx_bytes * 8.0) / (duration * 1000.0) if duration > 0 else 0.0`.
`duration` is in seconds, so the result is in Kbps. -/
def throughput (rx_bytes duration : ℚ) : ℚ :=
  if duration > 0 then (rx_bytes * 8) / (duration * 1000) else 0

/-- `parse_flowmon.py` line 78:
`avg_delay_ms = (delay_sum / rx_packets) * 1000.0 if rx_packets > 0 else 0.0`.
`delay_sum` is the raw `DelaySum` value in seconds; multiplying the
per-packet quotient by 1000 expresses it in milliseconds. -/
def avg_delay_ms (delay_sum : ℚ) (rx_packets : ℕ) : ℚ :=
  if rx_packets > 0 then (delay_sum / (rx_packets : ℚ)) * 1000 else 0

/-- `analyzer.py` line 159 (`generate_summary_documentation`):
`packet_loss_rate = (1 - (total_rx / total_tx)) * 100 if total_tx > 0 else 0`. -/
def packet_loss_rate (total_tx total_rx : ℕ) : ℚ :=
  if total_tx > 0 then (1 - (total_rx : ℚ) / (total_tx : ℚ)) * 100 else 0

/-- `parse_flowmon.py` line 74: `packet_loss = safe_float(loss_element)` —
the per-flow `PacketLoss(%)` column is read directly from the `Loss`
element (`none` = element absent or empty value, defaulting to 0.0);
no division by `tx_packets` occurs. -/
def flow_packet_loss (loss_attr : Option ℚ) : ℚ :=
  loss_attr.getD 0

/-- C2: with duration ≤ 0 the derived throughput is exactly 0, and the
division in the formula is only ever taken with a strictly positive
divisor (`duration * 1000 > 0`). -/
theorem C2_throughput_zero_on_nonpos_duration :
    (∀ rx d : ℚ, d ≤ 0 → throughput rx d = 0) ∧
    (∀ rx d : ℚ, throughput rx d = 0 ∨
      (0 < d * 1000 ∧ throughput rx d = (rx * 8) / (d * 1000))) := by
  constructor
  · intro rx d hd
    simp only [throughput, if_neg (not_lt.mpr hd)]
  · intro rx d
    by_cases hd : d > 0
    · exact Or.inr ⟨by positivity, by simp only [throughput, if_pos hd]⟩
    · exact Or.inl (by simp only [throughput, if_neg hd])

/-- Witness for C2: a record with duration 0 and 5 received bytes has
throughput exactly 0. -/
theorem C2_throughput_witness :
    (0 : ℚ) ≤ 0 ∧ throughput 5 0 = 0 :=
  ⟨le_refl 0, C2_throughput_zero_on_nonpos_duration.1 5 0 (le_refl 0)⟩

/-- C3: for rx_packets > 0 the derived avg_delay equals the
canonical-milliseconds accumulated delay sum (`delay_sum * 1000`, since
the raw sum is in seconds) divided by rx_packets; it is exactly 0 when
rx_packets = 0; and a flow with delaySum `"50ms"` (canonical 50 ms,
i.e. 1/20 s) and rx_packets 100 yields avg_delay 0.5 ms. -/
theorem C3_avg_delay :
    (∀ (d : ℚ) (rx : ℕ), 0 < rx → avg_delay_ms d rx = (d * 1000) / (rx : ℚ)) ∧
    (∀ d : ℚ, avg_delay_ms d 0 = 0) ∧
    (parse_time_with_units 50 .ms = (1 / 20 : ℚ) * 1000 ∧
      avg_delay_ms (1 / 20) 100 = 1 / 2) := by
  refine ⟨?_, ?_, by norm_num [parse_time_with_units], ?_⟩
  · intro d rx hrx
    rw [avg_delay_ms, if_pos hrx, div_mul_eq_mul_div]
  · intro d
    simp [avg_delay_ms]
  · rw [avg_delay_ms, if_pos (by norm_num)]
    norm_num

/-- Witness for C3: the rx_packets > 0 clause at delay_sum = 1 s,
rx_packets = 2. -/
theorem C3_avg_delay_witness :
    0 < 2 ∧ avg_delay_ms 1 2 = (1 * 1000 : ℚ) / ((2 : ℕ) : ℚ) :=
  ⟨by norm_num, C3_avg_delay.1 1 2 (by norm_num)⟩

/-! ### pandas modelling: nullable columns, `Series.mean`, `DataFrame.mean` -/

/-- A pandas Series of floats: cells are `Option ℚ`, `none` standing for
NaN/absent.  `Series.mean` skips NaN and is itself NaN on an empty or
all-NaN series. -/
def colMeanOpt (cells : List (Option ℚ)) : Option ℚ :=
  let vals := cells.filterMap id
  if vals.isEmpty then none else some (vals.sum / (vals.length : ℚ))

/-- `DataFrame.mean().mean()`: per-column means first (a Series with NaN
for all-NaN columns), then the mean of that Series with NaN skipped. -/
def mean_of_col_means (cols : List (List (Option ℚ))) : Option ℚ :=
  colMeanOpt (cols.map colMeanOpt)

/-- The global mean over all non-null cells of the given columns —
what the "overall" figure would be if it were a flat mean.  Spec-side
comparison definition, not code. -/
def globalMean (cols : List (List (Option ℚ))) : Option ℚ :=
  colMeanOpt cols.flatten

/-- Python's substring containment `needle in hay` on character lists. -/
def contains_sub (needle : List Char) : List Char → Bool
  | [] => needle.isEmpty
  | c :: t => List.isPrefixOf needle (c :: t) || contains_sub needle t

/-- A pandas DataFrame: named nullable columns in order. -/
structure Frame where
  cols : List (String × List (Option ℚ))
deriving DecidableEq

/-- `df.filter(like=key)` / `[col for col in df.columns if key in col]`:
the columns whose name contains `key` as a substring, in order. -/
def Frame.filter_like (df : Frame) (key : String) : List (List (Option ℚ)) :=
  (df.cols.filter (fun c => contains_sub key.toList c.1.toList)).map Prod.snd

/-- `df['name']`: pandas column lookup, raising `KeyError` when the
column is absent. -/
def Frame.get_col (df : Frame) (name : String) : Except String (List (Option ℚ)) :=
  match df.cols.find? (fun c => c.1 == name) with
  | some c => .ok c.2
  | none => .error ("KeyError: " ++ name)

/-- C4 counterexample: the code produces the plain number 0 — not a
NaN sentinel — for a zero-transmission record, and such a record's
loss value is included in a mean: `generate_summary_documentation`
(analyzer.py line 159) silently zeroes the totals-based loss rate when
total_tx = 0, `parse_flowmon` defaults the per-flow loss to 0.0 when
the `Loss` element is absent (independent of tx_packets), and a mean
over [100, that 0] is 50, not 100 as exclusion would give. -/
theorem C4_loss_rate_counterexample :
    packet_loss_rate 0 5 = 0 ∧
    flow_packet_loss none = 0 ∧
    colMeanOpt [some 100, some (flow_packet_loss none)] = some 50 := by
  refine ⟨by norm_num [packet_loss_rate], rfl, ?_⟩
  show colMeanOpt [some 100, some 0] = some 50
  norm_num [colMeanOpt, List.filterMap]

/-- C4 amended: for tx_packets = 0 no exception is raised, but the loss
figure is not a NaN sentinel: the totals-based rate is silently zeroed
to 0 (`analyzer.py` line 159), and the per-flow `PacketLoss(%)` value
is taken directly from the `Loss` attribute (defaulting to 0 when
absent) independent of tx_packets; such records are not excluded from
mean-based aggregates. -/
theorem C4_loss_rate_amended :
    (∀ rx : ℕ, packet_loss_rate 0 rx = 0) ∧
    flow_packet_loss none = 0 ∧
    (∀ q : ℚ, flow_packet_loss (some q) = q) ∧
    colMeanOpt [some 100, some (flow_packet_loss none)] = some 50 := by
  refine ⟨?_, rfl, fun q => rfl, ?_⟩
  · intro rx
    simp [packet_loss_rate]
  · show colMeanOpt [some 100, some 0] = some 50
    norm_num [colMeanOpt, List.filterMap]

/-! ### Flow classifier — `analyzer/parse_flowmon.py` lines 100-108 -/

/-- `parse_flowmon.py` lines 100-108: `UE_Index = DestinationPort - start`
kept when `start ≤ port < start + count`, else the flow is unmatched
(`none`) and filtered out.  The source hard-codes `start = 5000` and
`count = 5` ("Adjust if number of UEs varies", line 107); they are the
`(port_range_start, entity_count)` configuration. -/
def classify_flow (port_range_start entity_count port : ℤ) : Option ℤ :=
  if port_range_start ≤ port ∧ port < port_range_start + entity_count then
    some (port - port_range_start)
  else
    none

/-- The filter on lines 105-108 at the source's hard-coded configuration:
only ports in `[5000, 5000 + 5)` survive into the output table. -/
def matched_ports (ports : List ℤ) : List ℤ :=
  ports.filter (fun p => decide (5000 ≤ p ∧ p < 5000 + 5))

/-- C5: for every configuration and destination port, the classifier
returns entity index `port - port_range_start` inside
`[port_range_start, port_range_start + entity_count)` and the unmatched
sentinel outside; with the source's `(5000, 5)` configuration, ports
5000..5004 map to indices 0..4, 4999 and 5005 are unmatched, and an
unmatched port never appears in the filtered per-entity table. -/
theorem C5_flow_classifier :
    (∀ s c p : ℤ, (s ≤ p → p < s + c → classify_flow s c p = some (p - s)) ∧
      (p < s ∨ s + c ≤ p → classify_flow s c p = none)) ∧
    (classify_flow 5000 5 5000 = some 0 ∧ classify_flow 5000 5 5001 = some 1 ∧
      classify_flow 5000 5 5002 = some 2 ∧ classify_flow 5000 5 5003 = some 3 ∧
      classify_flow 5000 5 5004 = some 4) ∧
    (classify_flow 5000 5 4999 = none ∧ classify_flow 5000 5 5005 = none) ∧
    (∀ (l : List ℤ) (p : ℤ), classify_flow 5000 5 p = none → p ∉ matched_ports l) := by
  refine ⟨?_, by decide, by decide, ?_⟩
  · intro s c p
    constructor
    · intro h1 h2
      rw [classify_flow, if_pos ⟨h1, h2⟩]
    · intro h
      rw [classify_flow, if_neg]
      rcases h with h | h
      · exact fun hc => absurd hc.1 (not_le.mpr h)
      · exact fun hc => absurd hc.2 (not_lt.mpr h)
  · intro l p hp hmem
    rcases List.mem_filter.mp hmem with ⟨-, hrange⟩
    have hr := of_decide_eq_true hrange
    rw [classify_flow, if_pos hr] at hp
    exact Option.noConfusion hp

/-- Witness for C5: the in-range clause at configuration (5000, 5) and
port 5003, and the exclusion clause for port 4999 against the list
[4999, 5000]. -/
theorem C5_flow_classifier_witness :
    ((5000 : ℤ) ≤ 5003 ∧ (5003 : ℤ) < 5000 + 5 ∧
      classify_flow 5000 5 5003 = some 3) ∧
    (classify_flow 5000 5 4999 = none ∧ (4999 : ℤ) ∉ matched_ports [4999, 5000]) :=
  ⟨⟨by norm_num, by norm_num,
      by rw [(C5_flow_classifier.1 5000 5 5003).1 (by norm_num) (by norm_num)]; norm_num⟩,
    by decide,
    C5_flow_classifier.2.2.2 [4999, 5000] 4999 (by decide)⟩

/-! ### Time-series aggregator — `analyzer/utils.py` `generate_report`
(lines 56-59) and `analyzer.py` `generate_summary_documentation` -/

/-- `utils.py` line 57: `df.filter(like='Throughput').mean().mean()` —
the "overall" throughput figure of the report. -/
def report_avg_throughput (df : Frame) : Option ℚ :=
  mean_of_col_means (df.filter_like "Throughput")

/-- `utils.py` `generate_report` lines 56-59: the three summary
aggregates, in source order.  `df['Avg_Latency(ms)']` raises `KeyError`
when the column is absent, so the computation is `Except`-valued. -/
def generate_report_summary (df : Frame) :
    Except String (Option ℚ × Option ℚ × Option ℚ) := do
  let avg_throughput := mean_of_col_means (df.filter_like "Throughput")
  let lat_col ← df.get_col "Avg_Latency(ms)"
  let avg_latency := colMeanOpt lat_col
  let packet_loss := mean_of_col_means (df.filter_like "PacketLoss")
  return (avg_throughput, avg_latency, packet_loss)

theorem filterMap_id_map_some {α β : Type} (f : α → β) (l : List α) :
    List.filterMap id (List.map (fun a => some (f a)) l) = List.map f l := by
  induction l with
  | nil => rfl
  | cons a t ih => simp [List.filterMap_cons, ih]

/-- When the table is non-empty and every matched column has at least
one non-null cell, `DataFrame.mean().mean()` is the mean of the
per-column means. -/
theorem mean_of_col_means_eq (cols : List (List (Option ℚ)))
    (hne : cols ≠ [])
    (hcols : ∀ c ∈ cols, c.filterMap id ≠ []) :
    mean_of_col_means cols =
      some ((cols.map (fun c => (c.filterMap id).sum / ((c.filterMap id).length : ℚ))).sum
        / (cols.length : ℚ)) := by
  have hmap : cols.map colMeanOpt =
      cols.map (fun c => some ((c.filterMap id).sum / ((c.filterMap id).length : ℚ))) := by
    apply List.map_congr_left
    intro c hc
    have hemp : (c.filterMap id).isEmpty = false := by
      simp [List.isEmpty_iff, hcols c hc]
    simp [colMeanOpt, hemp]
  rw [mean_of_col_means, hmap, colMeanOpt]
  simp only [filterMap_id_map_some, List.length_map]
  rw [if_neg]
  simp [List.isEmpty_iff, hne]

/-- A time-series table whose matched throughput columns have different
non-null row counts: the mean of column means (1/2) differs from the
global mean over all cells (2/3). -/
def C6_example_frame : Frame :=
  ⟨[("Throughput_0(Kbps)", [some 0]),
    ("Throughput_1(Kbps)", [some 1, some 1]),
    ("Time(s)", [some 9])]⟩

/-- C6: the report's overall throughput figure is the mean of the
per-matched-column means — first a mean over the time steps of each
matched column, then a mean across those column means — and on a table
whose matched columns have different non-null row counts it differs
from the global mean over all cells of the matched columns. -/
theorem C6_overall_is_mean_of_column_means :
    (∀ df : Frame, df.filter_like "Throughput" ≠ [] →
      (∀ c ∈ df.filter_like "Throughput", c.filterMap id ≠ []) →
      report_avg_throughput df =
        some (((df.filter_like "Throughput").map
            (fun c => (c.filterMap id).sum / ((c.filterMap id).length : ℚ))).sum
          / (((df.filter_like "Throughput").length : ℚ)))) ∧
    (report_avg_throughput C6_example_frame = some (1 / 2) ∧
      globalMean (C6_example_frame.filter_like "Throughput") = some (2 / 3) ∧
      report_avg_throughput C6_example_frame ≠
        globalMean (C6_example_frame.filter_like "Throughput")) := by
  have hfl : C6_example_frame.filter_like "Throughput" = [[some 0], [some 1, some 1]] := by
    decide
  have h1 : report_avg_throughput C6_example_frame = some (1 / 2) := by
    rw [report_avg_throughput, hfl]
    norm_num [mean_of_col_means, colMeanOpt, List.filterMap]
  have h2 : globalMean (C6_example_frame.filter_like "Throughput") = some (2 / 3) := by
    rw [hfl]
    norm_num [globalMean, colMeanOpt, List.filterMap]
  refine ⟨?_, h1, h2, ?_⟩
  · intro df hne hcols
    exact mean_of_col_means_eq _ hne hcols
  · rw [h1, h2]
    intro h
    exact absurd (Option.some.inj h) (by norm_num)

/-- Witness for C6: the mean-of-means clause applied to the concrete
example table. -/
theorem C6_overall_witness :
    C6_example_frame.filter_like "Throughput" ≠ [] ∧
    report_avg_throughput C6_example_frame =
      some (((C6_example_frame.filter_like "Throughput").map
          (fun c => (c.filterMap id).sum / ((c.filterMap id).length : ℚ))).sum
        / (((C6_example_frame.filter_like "Throughput").length : ℚ))) :=
  ⟨by decide, C6_overall_is_mean_of_column_means.1 C6_example_frame (by decide) (by decide)⟩

/-- A time-series table with throughput and loss columns but no
`Avg_Latency(ms)` column. -/
def C7_example_frame : Frame :=
  ⟨[("Time(s)", [some 0]),
    ("Avg_Throughput(Kbps)", [some 10]),
    ("UE0_PacketLoss(%)", [some 1])]⟩

/-- C7 counterexample: on a table missing the mandatory latency column
the report computation raises `KeyError` (a thrown fault); it does not
produce a degraded partial report. -/
theorem C7_missing_latency_counterexample :
    generate_report_summary C7_example_frame = .error "KeyError: Avg_Latency(ms)" := by
  rfl

/-- C7 amended: a table missing the mandatory `Avg_Latency(ms)` column
makes `generate_report` raise a key-lookup error — a hard failure with
no partial report — while with the column present the computation never
fails; only the substring-matched metrics (throughput, loss) degrade to
the NaN aggregate when their columns are absent. -/
theorem C7_missing_latency_amended :
    (∀ df : Frame, df.cols.find? (fun c => c.1 == "Avg_Latency(ms)") = none →
      generate_report_summary df = .error ("KeyError: " ++ "Avg_Latency(ms)")) ∧
    (∀ (df : Frame) (col : String × List (Option ℚ)),
      df.cols.find? (fun c => c.1 == "Avg_Latency(ms)") = some col →
      generate_report_summary df =
        .ok (mean_of_col_means (df.filter_like "Throughput"), colMeanOpt col.2,
          mean_of_col_means (df.filter_like "PacketLoss"))) := by
  constructor
  · intro df hfind
    simp [generate_report_summary, Frame.get_col, hfind]
  · intro df col hfind
    simp [generate_report_summary, Frame.get_col, hfind]

/-- Witness for C7: the error clause at the concrete example table. -/
theorem C7_missing_latency_witness :
    C7_example_frame.cols.find? (fun c => c.1 == "Avg_Latency(ms)") = none ∧
    generate_report_summary C7_example_frame = .error ("KeyError: " ++ "Avg_Latency(ms)") :=
  ⟨by decide, C7_missing_latency_amended.1 C7_example_frame (by decide)⟩

/-! ### Flow trace parser — `analyzer/parse_flowmon.py` lines 22-96 -/

/-- The three states of a numeric attribute as `safe_int`/`safe_float`
(`parse_flowmon.py` lines 61-65) and `int(flow_id)` (line 81) see it:
the element absent or its `value` attribute missing/empty (`absent` —
the safe helpers default to 0, a missing `flowId` hits the `continue`
of line 24), the value present but non-numeric (`malformed` —
`int(...)`/`float(...)` raises a `ValueError` that nothing catches), or
a parsed numeric value. -/
inductive RawVal (α : Type)
  | absent
  | malformed
  | val (a : α)
deriving DecidableEq

/-- `parse_flowmon.py` lines 61-62: 0 when the element is absent or its
value empty; an uncaught `ValueError` when present but non-numeric. -/
def safe_int : RawVal ℕ → Except String ℕ
  | .absent => .ok 0
  | .malformed => .error "ValueError"
  | .val n => .ok n

/-- `parse_flowmon.py` lines 64-65: 0.0 when the element is absent or
its value empty; an uncaught `ValueError` when present but non-numeric. -/
def safe_float : RawVal ℚ → Except String ℚ
  | .absent => .ok 0
  | .malformed => .error "ValueError"
  | .val q => .ok q

/-- One `Flow` element of the trace document, as `parse_flowmon` reads
it.  The `Option` fields model absent elements/attributes; for the two
ports `none` also covers an `int(...)` parse failure, since both paths
hit a `continue` in the source (lines 47-50 and the
`try/except (TypeError, ValueError)` of lines 55-59).  The numeric
fields are `RawVal` because their conversions (lines 61-75 and 81) are
*not* protected: a present-but-non-numeric value there raises an
uncaught `ValueError`. -/
structure RawFlow where
  flowId : RawVal ℤ
  tx_present : Bool
  rx_present : Bool
  tx_address : Option String
  rx_address : Option String
  tx_port : Option ℤ
  rx_port : Option ℤ
  tx_packets : RawVal ℕ
  rx_packets : RawVal ℕ
  tx_bytes : RawVal ℕ
  rx_bytes : RawVal ℕ
  tx_retx : RawVal ℕ
  delay_sum : RawVal ℚ
  jitter_sum : RawVal ℚ
  loss : RawVal ℚ
  protocol : Option String
  duration : RawVal ℚ
deriving DecidableEq

/-- One row of the parsed flow table (`parse_flowmon.py` lines 80-96). -/
structure FlowRow where
  flowID : ℤ
  protocol : String
  sourceAddress : String
  destinationAddress : String
  sourcePort : ℤ
  destinationPort : ℤ
  txPackets : ℕ
  rxPackets : ℕ
  txBytes : ℕ
  rxBytes : ℕ
  txRetransmissions : ℕ
  duration : ℚ
  throughputKbps : ℚ
  avgDelayMs : ℚ
  packetLossPct : ℚ
deriving DecidableEq

/-- `parse_flowmon.py` lines 22-96: the body of the per-flow loop.
`.ok none` is a `continue` — a missing `flowId` (line 24), a missing
`Tx`/`Rx` node (line 29), or a missing/unconvertible
address/port/protocol value (lines 47-59).  `.error` is an uncaught
`ValueError` from `safe_int`/`safe_float` (lines 67-75, in source
order) or from `int(flow_id)` (line 81, evaluated after the safe
conversions), which aborts the whole parse.  `.ok (some row)` is the
appended row of lines 80-96, with the derived metrics given by the
`throughput`/`avg_delay_ms` definitions above (lines 77-78). -/
def parse_flow (f : RawFlow) : Except String (Option FlowRow) :=
  match f.flowId with
  | .absent => .ok none
  | fid =>
    if !f.tx_present || !f.rx_present then .ok none
    else
      match f.tx_address, f.rx_address, f.tx_port, f.rx_port, f.protocol with
      | some sa, some da, some sp, some dp, some proto => do
        let tx_packets ← safe_int f.tx_packets
        let rx_packets ← safe_int f.rx_packets
        let tx_bytes ← safe_int f.tx_bytes
        let rx_bytes ← safe_int f.rx_bytes
        let tx_retransmissions ← safe_int f.tx_retx
        let delay_sum ← safe_float f.delay_sum
        let _jitter_sum ← safe_float f.jitter_sum
        let packet_loss ← safe_float f.loss
        let dur ← safe_float f.duration
        let fid_int ←
          match fid with
          | .val i => Except.ok i
          | _ => Except.error "ValueError"
        return some
          { flowID := fid_int
            protocol := proto
            sourceAddress := sa
            destinationAddress := da
            sourcePort := sp
            destinationPort := dp
            txPackets := tx_packets
            rxPackets := rx_packets
            txBytes := tx_bytes
            rxBytes := rx_bytes
            txRetransmissions := tx_retransmissions
            duration := dur
            throughputKbps := throughput (rx_bytes : ℚ) dur
            avgDelayMs := avg_delay_ms delay_sum rx_packets
            packetLossPct := packet_loss }
      | _, _, _, _, _ => .ok none

/-- The whole per-flow loop, in document order: skipped flows
contribute nothing, and the first uncaught `ValueError` aborts the
parse of the entire trace (no rows survive). -/
def parse_flows : List RawFlow → Except String (List FlowRow)
  | [] => .ok []
  | f :: fs =>
    match parse_flow f with
    | .error e => .error e
    | .ok none => parse_flows fs
    | .ok (some row) =>
      match parse_flows fs with
      | .error e => .error e
      | .ok rest => .ok (row :: rest)

/-- Modelled from the spec: the skipped-record count the spec says the
parser surfaces in its result.  The source (`parse_flowmon.py`) keeps
no such counter — this definition exists only to state what the spec
asks for. -/
def spec_skipped_count (fs : List RawFlow) : ℕ :=
  (fs.filter (fun f =>
    match parse_flow f with
    | .ok none => true
    | _ => false)).length

/-- A fully well-formed flow (destination port 5001). -/
def good_flow : RawFlow :=
  { flowId := .val 1
    tx_present := true
    rx_present := true
    tx_address := some "10.0.0.1"
    rx_address := some "10.0.0.2"
    tx_port := some 49153
    rx_port := some 5001
    tx_packets := .val 100
    rx_packets := .val 90
    tx_bytes := .val 100000
    rx_bytes := .val 90000
    tx_retx := .val 0
    delay_sum := .val 1
    jitter_sum := .val 0
    loss := .val 10
    protocol := some "UDP"
    duration := .val 10 }

/-- An incomplete flow: its `Rx` node is missing (`continue`, line 29). -/
def bad_flow : RawFlow :=
  { good_flow with flowId := .val 2, rx_present := false }

/-- A flow whose `Packets` value is present but non-numeric (e.g.
`value="abc"`): `safe_int` raises an uncaught `ValueError` (line 67). -/
def abort_flow : RawFlow :=
  { good_flow with flowId := .val 3, tx_packets := .malformed }

/-- C9 counterexample: the claim fails twice on concrete inputs.
First, appending an incomplete flow (missing `Rx` node) leaves the
parser's result unchanged even though the number of skipped records
differs — so the result cannot surface a skipped-record count.
Second, a single flow element with a present-but-non-numeric `Packets`
value aborts the parse of the whole trace with an uncaught
`ValueError`, losing even the already-parsed flow. -/
theorem C9_no_skipped_count_counterexample :
    (parse_flows [good_flow, bad_flow] = parse_flows [good_flow] ∧
      spec_skipped_count [good_flow, bad_flow] ≠ spec_skipped_count [good_flow]) ∧
    parse_flows [good_flow, abort_flow] = .error "ValueError" :=
  ⟨⟨rfl, by decide⟩, rfl⟩

/-- C9 amended: a flow element missing its identifier, its `Tx`/`Rx`
node, or its address/port/protocol values is silently skipped without
aborting the parse — the remaining flows are parsed in order — but no
count of skipped records is kept or surfaced in the result, and a flow
element whose numeric value (counter, time sum, loss, duration,
identifier) is present but non-numeric raises an uncaught `ValueError`
that aborts the parse of the whole trace. -/
theorem C9_skip_without_abort :
    (∀ (f : RawFlow) (fs : List RawFlow), parse_flow f = .ok none →
      parse_flows (f :: fs) = parse_flows fs) ∧
    (∀ (f : RawFlow) (fs : List RawFlow) (r : FlowRow), parse_flow f = .ok (some r) →
      parse_flows (f :: fs) = Except.map (fun rest => r :: rest) (parse_flows fs)) ∧
    (∀ (f : RawFlow) (fs : List RawFlow) (e : String), parse_flow f = .error e →
      parse_flows (f :: fs) = .error e) := by
  refine ⟨?_, ?_, ?_⟩
  · intro f fs h
    simp [parse_flows, h]
  · intro f fs r h
    simp only [parse_flows, h]
    cases hfs : parse_flows fs <;> simp [Except.map]
  · intro f fs e h
    simp [parse_flows, h]

/-- Witness for C9 amended: the incomplete `bad_flow` (missing `Rx`
node) is skipped without aborting the parse of `good_flow`, while the
non-numeric `abort_flow` aborts the trace. -/
theorem C9_skip_without_abort_witness :
    (parse_flow bad_flow = .ok none ∧
      parse_flows [bad_flow, good_flow] = parse_flows [good_flow]) ∧
    (parse_flow abort_flow = .error "ValueError" ∧
      parse_flows [abort_flow, good_flow] = .error "ValueError") :=
  ⟨⟨rfl, C9_skip_without_abort.1 bad_flow [good_flow] rfl⟩,
    ⟨rfl, C9_skip_without_abort.2.2 abort_flow [good_flow] "ValueError" rfl⟩⟩

/-! ### CSV-write guard and driver — `parse_flowmon.py` lines 98-114,
`main.py` lines 53-56 -/

/-- `parse_flowmon.py` lines 98-108: pair each parsed row with its
`UE_Index = DestinationPort - 5000` and keep only rows whose
destination port lies in `[5000, 5000 + 5)`. -/
def classified_rows (rows : List FlowRow) : List (FlowRow × ℤ) :=
  (rows.map (fun r => (r, r.destinationPort - 5000))).filter
    (fun rc => decide (5000 ≤ rc.1.destinationPort ∧ rc.1.destinationPort < 5000 + 5))

/-- `parse_flowmon.py` lines 98-114: run the per-flow loop, classify,
and write the CSV only when the classified table is non-empty
(`.ok none` = no file written, warning only; `.error` = a `ValueError`
propagated out of the loop, so no file either). -/
def parse_flowmon_output (fs : List RawFlow) :
    Except String (Option (List (FlowRow × ℤ))) :=
  match parse_flows fs with
  | .error e => .error e
  | .ok rows =>
    if (classified_rows rows).isEmpty then .ok none
    else .ok (some (classified_rows rows))

/-- `main.py` lines 53-56: the driver exits with code 1 when the parsed
CSV does not exist, else proceeds (exit code 0).  On the `.error` path
the uncaught exception already terminates the interpreter with a
traceback and exit status 1 before the check at line 54 is reached; on
the `.ok none` path the check fails and line 56 calls `sys.exit(1)`. -/
def driver_exit_code (fs : List RawFlow) : ℕ :=
  match parse_flowmon_output fs with
  | .ok (some _) => 0
  | _ => 1

/-- C10: when a trace parses (without a `ValueError`) to a non-empty
row list whose flows all fall outside the configured destination-port
range, `parse_flowmon` writes no output CSV (warning only), and the
driver's parsed-CSV check terminates the run with exit code 1. -/
theorem C10_all_unmatched_no_csv_exit_1 :
    ∀ (fs : List RawFlow) (rows : List FlowRow), parse_flows fs = .ok rows →
      rows ≠ [] →
      (∀ r ∈ rows, classify_flow 5000 5 r.destinationPort = none) →
      parse_flowmon_output fs = .ok none ∧ driver_exit_code fs = 1 := by
  intro fs rows hrows hne hall
  have hcl : classified_rows rows = [] := by
    rw [classified_rows, List.filter_eq_nil_iff]
    intro rc hrc
    rcases List.mem_map.mp hrc with ⟨r, hr, rfl⟩
    have hcls := hall r hr
    intro hdec
    have hcond := of_decide_eq_true hdec
    rw [classify_flow, if_pos hcond] at hcls
    exact Option.noConfusion hcls
  have hout : parse_flowmon_output fs = .ok none := by
    rw [parse_flowmon_output, hrows]
    simp [hcl]
  exact ⟨hout, by simp [driver_exit_code, hout]⟩

/-- A well-formed flow whose destination port 9999 is outside the
configured range. -/
def unmatched_flow : RawFlow :=
  { good_flow with rx_port := some 9999 }

/-- The row `parse_flow` extracts from `unmatched_flow`. -/
def unmatched_row : FlowRow :=
  { flowID := 1
    protocol := "UDP"
    sourceAddress := "10.0.0.1"
    destinationAddress := "10.0.0.2"
    sourcePort := 49153
    destinationPort := 9999
    txPackets := 100
    rxPackets := 90
    txBytes := 100000
    rxBytes := 90000
    txRetransmissions := 0
    duration := 10
    throughputKbps := throughput ((90000 : ℕ) : ℚ) 10
    avgDelayMs := avg_delay_ms 1 90
    packetLossPct := 10 }

/-- Witness for C10: a trace whose single well-formed flow has
destination port 9999 produces no CSV and exit code 1. -/
theorem C10_all_unmatched_witness :
    parse_flows [unmatched_flow] = .ok [unmatched_row] ∧
    [unmatched_row] ≠ ([] : List FlowRow) ∧
    (∀ r ∈ [unmatched_row], classify_flow 5000 5 r.destinationPort = none) ∧
    (parse_flowmon_output [unmatched_flow] = .ok none ∧
      driver_exit_code [unmatched_flow] = 1) :=
  ⟨rfl, by decide, by decide,
    C10_all_unmatched_no_csv_exit_1 [unmatched_flow] [unmatched_row] rfl (by decide) (by decide)⟩

/-! ### Run comparator — `graph_merger.py` `load_simulation_data`
(lines 24-64) -/

/-- `graph_merger.py` line 42: the minimal required column set. -/
def required_columns : List String :=
  ["Time(s)", "Avg_Throughput(Kbps)", "Avg_Latency(ms)"]

def has_column (df : Frame) (name : String) : Bool :=
  df.cols.any (fun c => c.1 == name)

/-- `graph_merger.py` line 43: the required columns absent from a run's
table. -/
def missing_columns (df : Frame) : List String :=
  required_columns.filter (fun c => !(has_column df c))

/-- `df['name']` where presence has already been validated. -/
def pick_col (df : Frame) (name : String) : List (Option ℚ) :=
  ((df.cols.find? (fun c => c.1 == name)).map Prod.snd).getD []

/-- `graph_merger.py` lines 49-55: the synthesized `Avg_PacketLoss(%)`
column — the row-wise mean (`mean(axis=1)`, NaN skipped) of the columns
containing `"PacketLoss(%)"`, or constant 0 when no such column exists. -/
def synth_packet_loss (df : Frame) (nrows : ℕ) : List (Option ℚ) :=
  let plCols := df.filter_like "PacketLoss(%)"
  if plCols.isEmpty then List.replicate nrows (some 0)
  else (List.range nrows).map (fun i => colMeanOpt (plCols.map (fun c => c.getD i none)))

/-- `graph_merger.py` line 58: the four columns retained for a valid
run. -/
def load_run (df : Frame) : Frame :=
  ⟨[("Time(s)", pick_col df "Time(s)"),
    ("Avg_Throughput(Kbps)", pick_col df "Avg_Throughput(Kbps)"),
    ("Avg_Latency(ms)", pick_col df "Avg_Latency(ms)"),
    ("Avg_PacketLoss(%)", synth_packet_loss df (pick_col df "Time(s)").length)]⟩

/-- `graph_merger.py` `load_simulation_data` (lines 24-64).  The file
system is modelled by pairing each requested run number with
`Option Frame` (`none` = `simulation_metrics.csv` absent).  Returns the
loaded runs in requested order together with the recorded skip warnings
(missing file, line 63; missing required columns, line 45).  The purely
informational log lines 52/54/59 are not modelled. -/
def load_simulation_data :
    List (String × Option Frame) → List (String × Frame) × List String
  | [] => ([], [])
  | (run, none) :: rest =>
    let acc := load_simulation_data rest
    (acc.1, ("simulation_metrics.csv not found. Skipping run" ++ run) :: acc.2)
  | (run, some df) :: rest =>
    let acc := load_simulation_data rest
    if (missing_columns df).isEmpty then
      ((run, load_run df) :: acc.1, acc.2)
    else
      (acc.1, ("Missing columns. Skipping run" ++ run) :: acc.2)

/-- A requested run survives when its file exists and no required
column is missing (lines 38 and 44 of the source). -/
def run_valid : Option Frame → Bool
  | none => false
  | some df => (missing_columns df).isEmpty

theorem load_simulation_data_shape (runs : List (String × Option Frame)) :
    (load_simulation_data runs).1.map Prod.fst =
      (runs.filter (fun r => run_valid r.2)).map Prod.fst ∧
    (load_simulation_data runs).2.length =
      (runs.filter (fun r => !run_valid r.2)).length := by
  induction runs with
  | nil => exact ⟨rfl, rfl⟩
  | cons hd tl ih =>
    obtain ⟨run, odf⟩ := hd
    cases odf with
    | none =>
      simp [load_simulation_data, run_valid, List.filter_cons, ih.1, ih.2]
    | some df =>
      by_cases h : (missing_columns df).isEmpty
      · simp [load_simulation_data, run_valid, List.filter_cons, h, ih.1, ih.2]
      · simp [load_simulation_data, run_valid, List.filter_cons, h, ih.1, ih.2]

/-- A run table with all required columns. -/
def run_frame_ok : Frame :=
  ⟨[("Time(s)", [some 0, some 1]),
    ("Avg_Throughput(Kbps)", [some 10, some 12]),
    ("Avg_Latency(ms)", [some 5, some 6]),
    ("UE0_PacketLoss(%)", [some 1, some 3])]⟩

/-- A run table missing the required latency (and loss) columns. -/
def run_frame_missing_latency : Frame :=
  ⟨[("Time(s)", [some 0]), ("Avg_Throughput(Kbps)", [some 9])]⟩

/-- Three requested runs; run 28 lacks a required column. -/
def C8_requested : List (String × Option Frame) :=
  [("27", some run_frame_ok), ("28", some run_frame_missing_latency),
    ("29", some run_frame_ok)]

/-- C8: for distinct requested run identifiers, the comparator's output
holds exactly the valid runs' series in requested order, with one
recorded warning per skipped run; in the three-run scenario with run 28
missing a required column, the output is runs 27 and 29 in that order
plus one warning naming run 28. -/
theorem C8_run_comparator :
    (∀ runs : List (String × Option Frame), (runs.map Prod.fst).Nodup →
      (load_simulation_data runs).1.map Prod.fst =
        (runs.filter (fun r => run_valid r.2)).map Prod.fst ∧
      (load_simulation_data runs).2.length =
        (runs.filter (fun r => !run_valid r.2)).length) ∧
    ((load_simulation_data C8_requested).1.map Prod.fst = ["27", "29"] ∧
      (load_simulation_data C8_requested).2 = ["Missing columns. Skipping run28"]) := by
  refine ⟨fun runs _ => load_simulation_data_shape runs, ?_, ?_⟩
  · decide
  · decide

/-- Witness for C8: the shape clause at the concrete three-run request. -/
theorem C8_run_comparator_witness :
    (C8_requested.map Prod.fst).Nodup ∧
    (load_simulation_data C8_requested).1.map Prod.fst =
      (C8_requested.filter (fun r => run_valid r.2)).map Prod.fst :=
  ⟨by decide, (C8_run_comparator.1 C8_requested (by decide)).1⟩

end LteAnalyzer
